import Mathlib

/-!
Verification development for the water-meter-scanner retrieval engine.

Shallow embedding of the query router, the four retrieval strategies, the
fallback orchestrator, the result normalizer, the vision-analysis confidence
handling and the upload/storage path, translated from:
  app/api/routes.py           (chat, upload_meter_reading)
  app/services/search_service.py
  app/services/bedrock_service.py (analyze_meter_image)
  app/services/milvus_service.py  (store_meter_reading)
  app/api/utils.py            (convert_milvus_result)

External collaborators (the Bedrock embedding provider and the Milvus store)
are modelled as oracles: functions returning `Except Err _`, where an
`Except.error` result stands for a raised Python exception.  Python floats are
modelled as `Rat`; machine timestamps as `Int`.  A Python dict value that may
be `None` is an `Option`.
-/

abbrev Err := String

/-! ## Result normalizer (app/api/utils.py, convert_milvus_result)

A Milvus row value is duck-typed in the source: a numpy scalar (has an
`item` method returning the plain scalar), a numpy vector (has a `tolist`
method returning a plain list of scalars), a plain python list or tuple
whose elements may themselves be numpy scalars, or a plain value.  The
scalar payload type is abstract. -/

/-- An element of a python list/tuple as seen by convert_milvus_result:
either a numpy scalar or a plain value. -/
inductive PyElem (α : Type) where
  | npScalar (v : α)
  | plain (v : α)
deriving DecidableEq

/-- A field value of a Milvus result row as seen by convert_milvus_result. -/
inductive PyVal (α : Type) where
  | npScalar (v : α)
  | npArray (vs : List α)
  | pyList (vs : List (PyElem α))
  | plain (v : α)
deriving DecidableEq

/-- The per-element conversion applied inside the list branch:
`v.item() if hasattr(v, 'item') else v`. -/
def convertElem {α : Type} : PyElem α → PyElem α
  | .npScalar v => .plain v
  | .plain v => .plain v

/-- The per-field coercion of convert_milvus_result:
numpy scalar to its `item()`, numpy array to its `tolist()` (a plain python
list of plain scalars), list/tuple elements through `convertElem`, anything
else unchanged. -/
def convertValue {α : Type} : PyVal α → PyVal α
  | .npScalar v => .plain v
  | .npArray vs => .pyList (vs.map PyElem.plain)
  | .pyList vs => .pyList (vs.map convertElem)
  | .plain v => .plain v

/-- convert_milvus_result: applies convertValue to every field of the row
(a row is an association list of field name to value). -/
def convert_milvus_result {α : Type} (result : List (String × PyVal α)) :
    List (String × PyVal α) :=
  result.map (fun kv => (kv.1, convertValue kv.2))

/-! ## Data model -/

/-- A raw row returned by a Milvus scalar query or carried as the `entity` of
a vector-search hit.  The store is treated as possibly-partial: every field
may be absent/None. -/
structure StoreRow where
  id : Option String := none
  meter_value : Option Rat := none
  full_address : Option String := none
  confidence : Option Rat := none
  timestamp : Option Int := none
  city : Option String := none
  street_name : Option String := none
  street_number : Option String := none
deriving DecidableEq

/-- A vector-search hit: an entity row plus its L2 distance. -/
structure SearchHit where
  entity : StoreRow
  distance : Rat
deriving DecidableEq

/-- The canonical record shape the strategies return (a python dict in the
source; optional fields model keys that some strategies do not set). -/
structure RetrievedRecord where
  id : Option String := none
  meter_value : Rat := 0
  full_address : Option String := none
  confidence : Rat := 0
  timestamp : Int := 0
  city : Option String := none
  street_name : Option String := none
  street_number : Option String := none
  similarity_score : Rat := 0
  rank : Option Nat := none
  search_type : Option String := none
deriving DecidableEq

/-- The embedding field a vector search runs against. -/
inductive VectorField where
  | address_embedding
  | combined_embedding
deriving DecidableEq

/-- The filter expression search_by_recency passes to collection.query:
either the match-all expression or the substring-match disjunction over
full_address / city / street_name built from the raw query text. -/
inductive QueryExpr where
  | matchAll
  | addressLike (q : String)
deriving DecidableEq

/-- The Bedrock collaborator as the strategies see it: a connected flag and
generate_embedding, which raises (error) when the provider is unreachable or
returns an empty vector.  The lazy connect() calls in the strategies only
mutate the flag and never raise; their net effect is absorbed into the
outcome of generate_embedding. -/
structure BedrockService where
  connected : Bool
  generate_embedding : String → Except Err (List Rat)

/-- The Milvus collaborator: whether self.collection is set, the outcome of
collection.load(), collection.search (one query vector was sent, so the
single hit list stands for results[0]), and collection.query. -/
structure MilvusService where
  hasCollection : Bool
  load : Except Err Unit
  search : VectorField → List Rat → Nat → Except Err (List SearchHit)
  query : QueryExpr → Nat → Except Err (List StoreRow)

/-! ## Query router (routes.py chat, lines 196-223) -/

/-- Python substring test helper: needle is a leading segment of haystack. -/
def seqLeads : List Char → List Char → Bool
  | [], _ => true
  | _ :: _, [] => false
  | a :: as, b :: bs => a == b && seqLeads as bs

/-- Python substring containment over char lists. -/
def seqInside (needle : List Char) : List Char → Bool
  | [] => seqLeads needle []
  | b :: t => seqLeads needle (b :: t) || seqInside needle t

/-- Python `needle in haystack` on strings. -/
def pyContains (needle haystack : String) : Bool :=
  seqInside needle.toList haystack.toList

/-- Python str.strip(): drop leading and trailing whitespace. -/
def pyStrip (s : String) : String :=
  String.mk (((s.toList.dropWhile Char.isWhitespace).reverse.dropWhile
    Char.isWhitespace).reverse)

/-- Time-based keywords (checked first). -/
def recency_keywords : List String :=
  ["last", "latest", "recent", "newest", "most recent"]

/-- Usage-related keywords (checked second). -/
def usage_keywords : List String :=
  ["usage", "high", "low", "consumption", "similar", "pattern", "highest",
   "lowest"]

/-- Location-based keywords (checked third). -/
def location_keywords : List String :=
  ["address", "street", "city", "location", "where", "at"]

/-- Python `any(word in user_query_lower for word in kws)` where
user_query_lower is the lowercased query. -/
def hasKeyword (kws : List String) (q : String) : Bool :=
  kws.any (fun w => seqInside w.toList (q.toList.map Char.toLower))

/-- The strategy a question is routed to. -/
inductive StrategyTag where
  | recency
  | context
  | address
  | general
deriving DecidableEq

/-- The chat endpoint's keyword routing: ordered if/elif chain, first match
wins, default is general similarity search. -/
def classify (q : String) : StrategyTag :=
  if hasKeyword recency_keywords q then .recency
  else if hasKeyword usage_keywords q then .context
  else if hasKeyword location_keywords q then .address
  else .general

/-! ## Retrieval strategies (app/services/search_service.py) -/

/-- Row formatting in search_similar_readings: numeric fields are coerced
with `or 0` before the float()/int() cast (None becomes the zero value);
string fields are passed through unchanged (a missing value stays None);
`rank` is len(formatted_results) + 1 at append time, i.e. the 1-based
position. -/
def formatSimilarHit (h : SearchHit) (rank : Nat) : RetrievedRecord :=
  { id := h.entity.id
    meter_value := h.entity.meter_value.getD 0
    full_address := h.entity.full_address
    confidence := h.entity.confidence.getD 0
    timestamp := h.entity.timestamp.getD 0
    similarity_score := h.distance
    rank := some rank }

/-- The append loop of search_similar_readings: the accumulator length
threads through as the rank counter. -/
def formatSimilarList : List SearchHit → Nat → List RetrievedRecord
  | [], _ => []
  | h :: t, n => formatSimilarHit h (n + 1) :: formatSimilarList t (n + 1)

/-- search_similar_readings: embed the query, choose the vector field from
search_type, run the vector search; any exception inside the try block is
caught and converted to an empty list.  A missing collection makes the
search call itself fail inside the try block (None has no search method),
so the observable outcome is also the empty list. -/
def search_similar_readings (m : MilvusService) (b : BedrockService)
    (query : String) (search_type : String) (limit : Nat) :
    Except Err (List RetrievedRecord) :=
  if !m.hasCollection then .ok []
  else
    match b.generate_embedding query with
    | .error _ => .ok []
    | .ok emb =>
      let vector_field := if search_type = "combined" then
        VectorField.combined_embedding else VectorField.address_embedding
      match m.search vector_field emb limit with
      | .error _ => .ok []
      | .ok hits => .ok (formatSimilarList hits 0)

/-- Row formatting shared by search_by_address and search_by_context: the
numeric casts have no default, so float(None)/int(None) raises TypeError
inside the strategy's try block when a numeric field is absent; string
fields pass through unchanged.  No rank key is written. -/
def formatEntityHit (h : SearchHit) : Except Err RetrievedRecord :=
  match h.entity.meter_value, h.entity.confidence, h.entity.timestamp with
  | some mv, some cf, some ts =>
    .ok { id := h.entity.id
          meter_value := mv
          full_address := h.entity.full_address
          confidence := cf
          timestamp := ts
          city := h.entity.city
          street_name := h.entity.street_name
          street_number := h.entity.street_number
          similarity_score := h.distance }
  | _, _, _ => .error "TypeError: float argument must not be None"

/-- The formatting loop of search_by_address / search_by_context: the first
row with a missing numeric field aborts the whole loop with an exception. -/
def formatEntityList : List SearchHit → Except Err (List RetrievedRecord)
  | [] => .ok []
  | h :: t =>
    match formatEntityHit h with
    | .error e => .error e
    | .ok r =>
      match formatEntityList t with
      | .error e => .error e
      | .ok rs => .ok (r :: rs)

/-- search_by_address: early return [] when the collection is missing; load,
embed, search address_embedding and format, all inside one try block whose
handler returns []. -/
def search_by_address (m : MilvusService) (b : BedrockService)
    (query : String) (limit : Nat) : Except Err (List RetrievedRecord) :=
  if !m.hasCollection then .ok []
  else
    match m.load with
    | .error _ => .ok []
    | .ok _ =>
      match b.generate_embedding query with
      | .error _ => .ok []
      | .ok emb =>
        match m.search .address_embedding emb limit with
        | .error _ => .ok []
        | .ok hits =>
          match formatEntityList hits with
          | .error _ => .ok []
          | .ok rs => .ok rs

/-- search_by_context: identical to search_by_address except the search runs
against combined_embedding. -/
def search_by_context (m : MilvusService) (b : BedrockService)
    (query : String) (limit : Nat) : Except Err (List RetrievedRecord) :=
  if !m.hasCollection then .ok []
  else
    match m.load with
    | .error _ => .ok []
    | .ok _ =>
      match b.generate_embedding query with
      | .error _ => .ok []
      | .ok emb =>
        match m.search .combined_embedding emb limit with
        | .error _ => .ok []
        | .ok hits =>
          match formatEntityList hits with
          | .error _ => .ok []
          | .ok rs => .ok rs

/-- The sort key of search_by_recency: x.get("timestamp", 0). -/
def tsKey (r : StoreRow) : Int := r.timestamp.getD 0

/-- The descending-timestamp ordering used by the python stable sort with
reverse=True. -/
def rowGE (a b : StoreRow) : Prop := tsKey b ≤ tsKey a

instance : DecidableRel rowGE :=
  fun a b => inferInstanceAs (Decidable (tsKey b ≤ tsKey a))

instance : IsTotal StoreRow rowGE := ⟨fun a b => le_total (tsKey b) (tsKey a)⟩

instance : IsTrans StoreRow rowGE := ⟨fun _ _ _ h1 h2 => le_trans h2 h1⟩

/-- Python sorted(key=timestamp, reverse=True): a stable sort into
non-increasing timestamp order.  Stable insertion sort produces the same
list as any stable sort for the same ordering. -/
def sortByTimestampDesc (rows : List StoreRow) : List StoreRow :=
  List.insertionSort rowGE rows

/-- The filter expression search_by_recency builds: the substring-match
disjunction from the raw query text when query.strip() is non-empty,
otherwise the match-all expression. -/
def recencyExpr (query : String) : QueryExpr :=
  if pyStrip query ≠ "" then .addressLike query else .matchAll

/-- Row formatting in search_by_recency: every scalar field is read with a
type-appropriate zero default; similarity_score is fixed at 0.0,
search_type at "recency", rank is the 1-based enumerate position. -/
def formatRecencyRow (r : StoreRow) (i : Nat) : RetrievedRecord :=
  { id := some (r.id.getD "")
    meter_value := r.meter_value.getD 0
    full_address := some (r.full_address.getD "")
    confidence := r.confidence.getD 0
    timestamp := r.timestamp.getD 0
    city := some (r.city.getD "")
    street_name := some (r.street_name.getD "")
    street_number := some (r.street_number.getD "")
    similarity_score := 0
    rank := some (i + 1)
    search_type := some "recency" }

/-- The enumerate loop of search_by_recency (i starts at 0, rank is i+1). -/
def formatRecencyList : List StoreRow → Nat → List RetrievedRecord
  | [], _ => []
  | r :: t, i => formatRecencyRow r i :: formatRecencyList t (i + 1)

/-- search_by_recency: return [] when the collection is missing or load
fails (each caught locally); query up to 2*limit candidates with the built
filter; if that query raises, rerun the match-all query outside any try
block, so its failure propagates to the caller; convert rows (the numpy
unwrapping is the identity on typed rows), sort by timestamp descending,
truncate to limit and format. -/
def search_by_recency (m : MilvusService) (query : String) (limit : Nat) :
    Except Err (List RetrievedRecord) :=
  if !m.hasCollection then .ok []
  else
    match m.load with
    | .error _ => .ok []
    | .ok _ =>
      let fetched : Except Err (List StoreRow) :=
        match m.query (recencyExpr query) (limit * 2) with
        | .ok rs => .ok rs
        | .error _ => m.query .matchAll (limit * 2)
      match fetched with
      | .error e => .error e
      | .ok rows =>
        if rows.isEmpty then .ok []
        else .ok (formatRecencyList ((sortByTimestampDesc rows).take limit) 0)

/-! ## Chat orchestration (routes.py chat, lines 196-248) -/

/-- Stage 1 of the chat flow: dispatch on the routed strategy, each invoked
with limit 5; the default branch runs the general similarity search in
"combined" mode. -/
def routeStage (m : MilvusService) (b : BedrockService) (q : String) :
    Except Err (List RetrievedRecord) :=
  match classify q with
  | .recency => search_by_recency m q 5
  | .context => search_by_context m b q 5
  | .address => search_by_address m b q 5
  | .general => search_similar_readings m b q "combined" 5

/-- The fallback chain of the chat endpoint: run the routed strategy; if it
returned no records, retry general similarity in "address" mode with the
doubled limit 10; if still empty, fetch recent readings with an empty query
at the original limit 5. -/
def chatRetrieve (m : MilvusService) (b : BedrockService) (q : String) :
    Except Err (List RetrievedRecord) :=
  match routeStage m b q with
  | .error e => .error e
  | .ok r1 =>
    if r1.isEmpty then
      match search_similar_readings m b q "address" 10 with
      | .error e => .error e
      | .ok r2 =>
        if r2.isEmpty then search_by_recency m "" 5
        else .ok r2
    else .ok r1

/-- The observable outcome of the chat endpoint. -/
inductive ChatOutcome where
  | badRequest
  | unavailable (detail : String)
  | internalError (e : Err)
  | answered (context : List RetrievedRecord)
deriving DecidableEq

/-- The chat endpoint: strip the message; empty means 400; a disconnected
Bedrock service means 503, then a missing Milvus collection means 503; only
then run the strategy/fallback chain and hand its records to generation
(generate_chat_response catches internally, so a successful retrieval always
yields an answer built from the possibly-empty context). -/
def chat (m : MilvusService) (b : BedrockService) (message : String) :
    ChatOutcome :=
  let user_query := pyStrip message
  if user_query = "" then .badRequest
  else if !b.connected then .unavailable "bedrock service not available"
  else if !m.hasCollection then .unavailable "milvus service not available"
  else
    match chatRetrieve m b user_query with
    | .error e => .internalError e
    | .ok rs => .answered rs

/-! ## Vision analysis confidence (bedrock_service.py, analyze_meter_image)
and the upload/storage path (routes.py upload_meter_reading,
milvus_service.py store_meter_reading) -/

/-- Clamp to the unit interval: max(0.0, min(1.0, c)). -/
def clamp01 (c : Rat) : Rat := max 0 (min 1 c)

/-- The outcome of the vision-model call as analyze_meter_image sees it:
the JSON parse succeeded (with the validated meter value and the optional
raw confidence field), the JSON parse failed and the regex fallback ran
(with the value the patterns extracted, if any), or the call itself failed
(caught by the outer handler). -/
inductive ModelResponse where
  | jsonOk (meter_value : Rat) (confidence : Option Rat)
  | jsonBad (regex_value : Option Rat)
  | callFailed (msg : String)
deriving DecidableEq

/-- The fields of the vision-analysis result dict that the upload path
consumes. -/
structure VisionResult where
  meter_value : Rat
  confidence : Rat
deriving DecidableEq

/-- The fallback dict the inner except block of analyze_meter_image builds
(bedrock_service.py lines 334-344, under the comment "Return fallback
result with extracted info"): the regex-extracted meter value with
confidence 0.7 when a pattern matched, both 0.0 otherwise.  The block ends
without returning this dict. -/
def regexFallbackResult (rv : Option Rat) : VisionResult :=
  { meter_value := rv.getD 0
    confidence := if rv.isSome then 7/10 else 0 }

/-- analyze_meter_image, by response path: on JSON-parse success the
confidence is float(result.get("confidence", 0.0)) clamped to [0,1] and the
dict is returned; on JSON-parse failure the inner except block builds
regexFallbackResult but has no return statement, so control falls off the
end of the function and None is returned; on total failure the outer
handler returns a dict with both fields 0.0.  The function catches every
exception, so it never raises, but it does not always return a dict. -/
def analyze_meter_image (resp : ModelResponse) : Option VisionResult :=
  match resp with
  | .jsonOk mv conf =>
    some { meter_value := mv, confidence := clamp01 (conf.getD 0) }
  | .jsonBad _ => none
  | .callFailed _ => some { meter_value := 0, confidence := 0 }

/-- Address fields supplied with the upload. -/
structure AddressInfo where
  city : String
  street_name : String
  street_number : String
deriving DecidableEq

/-- The dict generate_meter_embeddings returns. -/
structure EmbedData where
  address_embedding : List Rat
  combined_embedding : List Rat
  full_address : String
deriving DecidableEq

/-- The row store_meter_reading hands to collection.insert (the data list of
milvus_service.py lines 282-293; the units and meter_type arguments are not
part of it). -/
structure InsertData where
  id : String
  address_embedding : List Rat
  combined_embedding : List Rat
  meter_value : Rat
  city : String
  street_name : String
  street_number : String
  full_address : String
  timestamp : Int
  confidence : Rat
deriving DecidableEq

/-- The insertion row built by store_meter_reading: every field, confidence
included, is passed through unchanged; the function performs no clamping. -/
def mkInsertData (reading_id : String) (a : AddressInfo)
    (meter_value confidence : Rat) (e : EmbedData) (timestamp : Int) :
    InsertData :=
  { id := reading_id
    address_embedding := e.address_embedding
    combined_embedding := e.combined_embedding
    meter_value := meter_value
    city := a.city
    street_name := a.street_name
    street_number := a.street_number
    full_address := e.full_address
    timestamp := timestamp
    confidence := confidence }

/-- store_meter_reading: False when the collection is missing or the insert
raises (caught internally); True with the inserted row otherwise.  The
units and meter_type parameters are accepted but never stored. -/
def store_meter_reading (hasCollection : Bool)
    (insertOutcome : Except Err Unit) (reading_id : String) (a : AddressInfo)
    (meter_value confidence : Rat) (e : EmbedData) (timestamp : Int)
    (units meter_type : String) : Bool × Option InsertData :=
  if !hasCollection then (false, none)
  else
    match insertOutcome with
    | .ok _ => (true, some (mkInsertData reading_id a meter_value confidence
        e timestamp))
    | .error _ => (false, none)

/-- The 503/500 error surface of the upload endpoint. -/
inductive HTTPError where
  | serviceUnavailable (detail : String)
  | internalError (detail : String)
deriving DecidableEq

/-- The fields of the UploadResponse the caller can observe (timestamp is
wall-clock and notes are free text; neither depends on the storage
outcome). -/
structure UploadResponse where
  success : Bool
  reading_id : String
  meter_value : Rat
  confidence : Rat
  address : String
deriving DecidableEq

/-- The full address string built in the upload path. -/
def full_address_of (a : AddressInfo) : String :=
  a.street_number ++ " " ++ a.street_name ++ ", " ++ a.city

/-- upload_meter_reading: 503 when Bedrock is disconnected; vision analysis
never raises (it catches internally), so the try/except around the call is
dead, but it returns None on the JSON-parse-failure path, making the
`not vision_result` guard at routes.py lines 116-117 reachable: it aborts
with a 500 before the embedding and storage steps; a failed embedding
generation is a 500; store_meter_reading catches internally and never
raises, so its False result is only logged and the success response is
returned regardless.  The returned pair is the HTTP response together with
the row actually persisted (none when storage failed). -/
def upload_meter_reading (bedrockConnected : Bool) (resp : ModelResponse)
    (embedOutcome : Except Err EmbedData) (hasCollection : Bool)
    (insertOutcome : Except Err Unit) (reading_id : String) (a : AddressInfo)
    (timestamp : Int) : Except HTTPError (UploadResponse × Option InsertData) :=
  if !bedrockConnected then
    .error (.serviceUnavailable "Bedrock service not available")
  else
    match analyze_meter_image resp with
    | none =>
      .error (.internalError "Vision analysis failed to return valid results")
    | some vision_result =>
      match embedOutcome with
      | .error _ => .error (.internalError "Embedding generation failed")
      | .ok e =>
        let sr := store_meter_reading hasCollection insertOutcome reading_id a
          vision_result.meter_value vision_result.confidence e timestamp
          "cubic_meters" "unknown"
        .ok ({ success := true
               reading_id := reading_id
               meter_value := vision_result.meter_value
               confidence := vision_result.confidence
               address := full_address_of a }, sr.2)

/-! ## Concrete fixtures used by witnesses and counterexamples -/

/-- A fully populated stored row (timestamp 100). -/
def row1 : StoreRow :=
  { id := some "meter_1"
    meter_value := some 15
    full_address := some "12 Elm St, Springfield"
    confidence := some 1
    timestamp := some 100
    city := some "Springfield"
    street_name := some "Elm St"
    street_number := some "12" }

/-- A fully populated stored row (timestamp 300). -/
def row2 : StoreRow :=
  { id := some "meter_2"
    meter_value := some 42
    full_address := some "45 Oak Ave, Springfield"
    confidence := some 1
    timestamp := some 300
    city := some "Springfield"
    street_name := some "Oak Ave"
    street_number := some "45" }

/-- A vector-search hit carrying row1. -/
def hit1 : SearchHit := { entity := row1, distance := 2 }

/-- A hit whose entity has a null meter_value. -/
def nullHit : SearchHit := { entity := { row2 with meter_value := none }, distance := 3 }

/-- A healthy embedding provider. -/
def okBedrock : BedrockService :=
  { connected := true, generate_embedding := fun _ => .ok [1] }

/-- A disconnected embedding provider. -/
def downBedrock : BedrockService :=
  { connected := false, generate_embedding := fun _ => .error "not connected" }

/-- A healthy store holding row1 and row2. -/
def okStore : MilvusService :=
  { hasCollection := true
    load := .ok ()
    search := fun _ _ _ => .ok [hit1]
    query := fun _ _ => .ok [row1, row2] }

/-- A store whose search and query calls both fail. -/
def downStore : MilvusService :=
  { hasCollection := true
    load := .ok ()
    search := fun _ _ _ => .error "search failed"
    query := fun _ _ => .error "query failed" }

/-- A store whose vector search returns one hit with a null meter_value. -/
def nullFieldStore : MilvusService :=
  { hasCollection := true
    load := .ok ()
    search := fun _ _ _ => .ok [nullHit]
    query := fun _ _ => .ok [] }

/-! ## C1: router precedence -/

/-- C1: the query router classifies by case-insensitive keyword containment
with fixed precedence Recency > Context > Address > Default: a recency
keyword always selects the recency strategy regardless of other keywords;
otherwise a usage keyword selects context search; otherwise a location
keyword selects address search; with no keyword the chat flow runs the
general similarity search over the combined embedding. -/
theorem chat_routing_precedence (m : MilvusService) (b : BedrockService)
    (q : String) :
    (hasKeyword recency_keywords q = true →
      classify q = .recency ∧ routeStage m b q = search_by_recency m q 5) ∧
    (hasKeyword recency_keywords q = false →
      hasKeyword usage_keywords q = true →
      classify q = .context ∧ routeStage m b q = search_by_context m b q 5) ∧
    (hasKeyword recency_keywords q = false →
      hasKeyword usage_keywords q = false →
      hasKeyword location_keywords q = true →
      classify q = .address ∧ routeStage m b q = search_by_address m b q 5) ∧
    (hasKeyword recency_keywords q = false →
      hasKeyword usage_keywords q = false →
      hasKeyword location_keywords q = false →
      classify q = .general ∧
        routeStage m b q = search_similar_readings m b q "combined" 5) := by
  refine ⟨fun h1 => ?_, fun h1 h2 => ?_, fun h1 h2 h3 => ?_,
    fun h1 h2 h3 => ?_⟩ <;>
    constructor <;>
    simp [classify, routeStage, h1] <;>
    simp_all [classify, routeStage]

/-- Witness for C1 at concrete questions: a question with both a recency and
a usage and a location keyword routes to recency; with usage and location
keywords but no recency keyword it routes to context; with only a location
keyword to address; with no keyword to general similarity. -/
theorem chat_routing_precedence_witness :
    classify "latest usage at" = .recency ∧
    routeStage okStore okBedrock "latest usage at" =
      search_by_recency okStore "latest usage at" 5 ∧
    classify "usage at" = .context ∧
    classify "the street" = .address ∧
    classify "hello" = .general := by
  have h1 := (chat_routing_precedence okStore okBedrock "latest usage at").1
    (by decide)
  have h2 := (chat_routing_precedence okStore okBedrock "usage at").2.1
    (by decide) (by decide)
  have h3 := (chat_routing_precedence okStore okBedrock "the street").2.2.1
    (by decide) (by decide) (by decide)
  have h4 := (chat_routing_precedence okStore okBedrock "hello").2.2.2
    (by decide) (by decide) (by decide)
  exact ⟨h1.1, h1.2, h2.1, h3.1, h4.1⟩

/-! ## C2: fallback monotonicity -/

/-- C2: if the routed strategy returns a non-empty record sequence, the
retrieval output handed to generation is exactly that sequence and no
fallback stage runs; the stage-2 broader search ("address" mode at the
doubled limit 10) determines the output only when stage 1 was empty, and
the stage-3 unfiltered recency search (empty query, original limit 5) runs
only when stage 2 was also empty. -/
theorem chat_fallback_monotonic (m : MilvusService) (b : BedrockService)
    (q : String) :
    (∀ r1, routeStage m b q = .ok r1 → r1 ≠ [] →
      chatRetrieve m b q = .ok r1) ∧
    (∀ r2, routeStage m b q = .ok [] →
      search_similar_readings m b q "address" 10 = .ok r2 → r2 ≠ [] →
      chatRetrieve m b q = .ok r2) ∧
    (routeStage m b q = .ok [] →
      search_similar_readings m b q "address" 10 = .ok [] →
      chatRetrieve m b q = search_by_recency m "" 5) := by
  refine ⟨?_, ?_, ?_⟩
  · intro r1 h1 hne
    cases r1 with
    | nil => exact absurd rfl hne
    | cons a t => simp [chatRetrieve, h1]
  · intro r2 h1 h2 hne
    cases r2 with
    | nil => exact absurd rfl hne
    | cons a t => simp [chatRetrieve, h1, h2]
  · intro h1 h2
    simp [chatRetrieve, h1, h2]

/-- Witness for C2: with a healthy store the routed recency strategy for
"latest" returns two records and the chat output is exactly that list. -/
theorem chat_fallback_monotonic_witness :
    chatRetrieve okStore okBedrock "latest" =
      .ok [formatRecencyRow row2 0, formatRecencyRow row1 1] :=
  (chat_fallback_monotonic okStore okBedrock "latest").1
    [formatRecencyRow row2 0, formatRecencyRow row1 1] (by rfl) (by decide)

/-! ## C3: strategies and exception containment -/

/-- Counterexample to C3: with a store whose query calls fail, the recency
strategy propagates the failure of its unfiltered fallback query instead of
converting it into an empty result. -/
theorem search_by_recency_raises_cex :
    search_by_recency downStore "Elm" 5 = .error "query failed" := by rfl

/-- C3 as amended: the three similarity strategies never raise for any
input (collaborator failures are converted to empty results), and the
recency strategy is exception-free whenever its unfiltered match-all query
succeeds; only the failure of that unfiltered fallback query escapes the
strategy boundary. -/
theorem strategy_error_containment (m : MilvusService) (b : BedrockService)
    (query search_type : String) (limit : Nat) :
    (search_similar_readings m b query search_type limit).isOk = true ∧
    (search_by_address m b query limit).isOk = true ∧
    (search_by_context m b query limit).isOk = true ∧
    (∀ rows, m.query .matchAll (limit * 2) = .ok rows →
      (search_by_recency m query limit).isOk = true) := by
  refine ⟨?_, ?_, ?_, ?_⟩
  · unfold search_similar_readings
    split
    · rfl
    · cases b.generate_embedding query with
      | error e => rfl
      | ok emb =>
        simp only []
        cases m.search (if search_type = "combined" then
            VectorField.combined_embedding else VectorField.address_embedding)
            emb limit with
        | error e => rfl
        | ok hits => rfl
  · unfold search_by_address
    split
    · rfl
    · cases hl : m.load with
      | error e => simp [hl, Except.isOk, Except.toBool]
      | ok u =>
        cases hb : b.generate_embedding query with
        | error e => simp [hl, hb, Except.isOk, Except.toBool]
        | ok emb =>
          cases hs : m.search .address_embedding emb limit with
          | error e => simp [hl, hb, hs, Except.isOk, Except.toBool]
          | ok hits =>
            cases hf : formatEntityList hits with
            | error e => simp [hl, hb, hs, hf, Except.isOk, Except.toBool]
            | ok rs => simp [hl, hb, hs, hf, Except.isOk, Except.toBool]
  · unfold search_by_context
    split
    · rfl
    · cases hl : m.load with
      | error e => simp [hl, Except.isOk, Except.toBool]
      | ok u =>
        cases hb : b.generate_embedding query with
        | error e => simp [hl, hb, Except.isOk, Except.toBool]
        | ok emb =>
          cases hs : m.search .combined_embedding emb limit with
          | error e => simp [hl, hb, hs, Except.isOk, Except.toBool]
          | ok hits =>
            cases hf : formatEntityList hits with
            | error e => simp [hl, hb, hs, hf, Except.isOk, Except.toBool]
            | ok rs => simp [hl, hb, hs, hf, Except.isOk, Except.toBool]
  · intro rows h
    unfold search_by_recency
    split
    · rfl
    · split
      · rfl
      · cases hq : m.query (recencyExpr query) (limit * 2) with
        | error e =>
          simp only [hq, h]
          cases rows <;> rfl
        | ok rs =>
          simp only [hq]
          cases rs <;> rfl

/-- Witness for C3 (amended): the recency strategy on the healthy store
returns successfully. -/
theorem strategy_error_containment_witness :
    (search_by_recency okStore "latest" 5).isOk = true :=
  (strategy_error_containment okStore okBedrock "latest" "combined" 5).2.2.2
    [row1, row2] rfl

/-! ## C4: rank contiguity -/

/-- The rank column of a result sequence, in order. -/
def ranksOf (rs : List RetrievedRecord) : List (Option Nat) :=
  rs.map (fun r => r.rank)

/-- The contiguous rank sequence some 1, ..., some n. -/
def contiguousRanks (n : Nat) : List (Option Nat) :=
  (List.range' 1 n).map some

lemma formatSimilarList_length (hits : List SearchHit) (n : Nat) :
    (formatSimilarList hits n).length = hits.length := by
  induction hits generalizing n with
  | nil => rfl
  | cons h t ih => simp [formatSimilarList, ih]

lemma formatSimilarList_ranks (hits : List SearchHit) (n : Nat) :
    ranksOf (formatSimilarList hits n) =
      (List.range' (n + 1) hits.length).map some := by
  induction hits generalizing n with
  | nil => rfl
  | cons h t ih =>
    simp [formatSimilarList, ranksOf, formatSimilarHit, List.range'] at ih ⊢
    exact ih (n + 1)

lemma formatRecencyList_length (rows : List StoreRow) (i : Nat) :
    (formatRecencyList rows i).length = rows.length := by
  induction rows generalizing i with
  | nil => rfl
  | cons r t ih => simp [formatRecencyList, ih]

lemma formatRecencyList_ranks (rows : List StoreRow) (i : Nat) :
    ranksOf (formatRecencyList rows i) =
      (List.range' (i + 1) rows.length).map some := by
  induction rows generalizing i with
  | nil => rfl
  | cons r t ih =>
    simp [formatRecencyList, ranksOf, formatRecencyRow, List.range'] at ih ⊢
    exact ih (i + 1)

lemma formatEntityHit_rank (h : SearchHit) (r : RetrievedRecord)
    (hh : formatEntityHit h = .ok r) : r.rank = none := by
  unfold formatEntityHit at hh
  split at hh
  · cases hh
    rfl
  · simp at hh

lemma formatEntityList_rank_none (hits : List SearchHit)
    (rs : List RetrievedRecord) (h : formatEntityList hits = .ok rs) :
    ∀ r ∈ rs, r.rank = none := by
  induction hits generalizing rs with
  | nil =>
    simp [formatEntityList] at h
    subst h
    simp
  | cons hd tl ih =>
    cases hh : formatEntityHit hd with
    | error e => simp [formatEntityList, hh] at h
    | ok r0 =>
      cases ht : formatEntityList tl with
      | error e => simp [formatEntityList, hh, ht] at h
      | ok rs2 =>
        simp only [formatEntityList, hh, ht] at h
        cases h
        intro r hr
        rcases List.mem_cons.mp hr with h1 | h2
        · subst h1
          exact formatEntityHit_rank hd r hh
        · exact ih rs2 ht r h2

/-- Counterexample to C4: the address strategy returns a non-empty result
whose records carry no rank field at all, so the rank column is not the
contiguous sequence 1..len. -/
theorem address_rank_missing_cex :
    search_by_address okStore okBedrock "where" 5 =
      .ok [{ id := some "meter_1"
             meter_value := 15
             full_address := some "12 Elm St, Springfield"
             confidence := 1
             timestamp := 100
             city := some "Springfield"
             street_name := some "Elm St"
             street_number := some "12"
             similarity_score := 2 }] ∧
    ranksOf [{ id := some "meter_1"
               meter_value := 15
               full_address := some "12 Elm St, Springfield"
               confidence := 1
               timestamp := 100
               city := some "Springfield"
               street_name := some "Elm St"
               street_number := some "12"
               similarity_score := 2 }] ≠ contiguousRanks 1 :=
  ⟨rfl, by decide⟩

/-- C4 as amended: the general-similarity and recency strategies return
rank values that are exactly 1..len in sequence order, while the records
produced by the address-similarity and context-similarity strategies carry
no rank field. -/
theorem rank_contiguity_by_strategy (m : MilvusService) (b : BedrockService)
    (query search_type : String) (limit : Nat) :
    (∀ rs, search_similar_readings m b query search_type limit = .ok rs →
      ranksOf rs = contiguousRanks rs.length) ∧
    (∀ rs, search_by_recency m query limit = .ok rs →
      ranksOf rs = contiguousRanks rs.length) ∧
    (∀ rs, search_by_address m b query limit = .ok rs →
      ∀ r ∈ rs, r.rank = none) ∧
    (∀ rs, search_by_context m b query limit = .ok rs →
      ∀ r ∈ rs, r.rank = none) := by
  have hfmt : ∀ (hits : List SearchHit),
      ranksOf (formatSimilarList hits 0) =
        contiguousRanks (formatSimilarList hits 0).length := by
    intro hits
    rw [formatSimilarList_ranks, formatSimilarList_length]
    rfl
  have hrec : ∀ (rows : List StoreRow),
      ranksOf (formatRecencyList rows 0) =
        contiguousRanks (formatRecencyList rows 0).length := by
    intro rows
    rw [formatRecencyList_ranks, formatRecencyList_length]
    rfl
  refine ⟨?_, ?_, ?_, ?_⟩
  · intro rs h
    unfold search_similar_readings at h
    split at h
    · cases h
      rfl
    · cases hb : b.generate_embedding query with
      | error e =>
        rw [hb] at h
        cases h
        rfl
      | ok emb =>
        rw [hb] at h
        simp only [] at h
        cases hs : m.search (if search_type = "combined" then
            VectorField.combined_embedding else VectorField.address_embedding)
            emb limit with
        | error e =>
          rw [hs] at h
          cases h
          rfl
        | ok hits =>
          rw [hs] at h
          cases h
          exact hfmt hits
  · intro rs h
    unfold search_by_recency at h
    split at h
    · cases h
      rfl
    · split at h
      · cases h
        rfl
      · cases hq : m.query (recencyExpr query) (limit * 2) with
        | error e =>
          rw [hq] at h
          simp only [] at h
          cases hq2 : m.query .matchAll (limit * 2) with
          | error e2 => rw [hq2] at h; cases h
          | ok rows =>
            rw [hq2] at h
            cases rows with
            | nil => cases h; rfl
            | cons r0 t0 =>
              simp only [List.isEmpty_cons, if_neg] at h
              cases h
              exact hrec _
        | ok rows =>
          rw [hq] at h
          simp only [] at h
          cases rows with
          | nil => cases h; rfl
          | cons r0 t0 =>
            simp only [List.isEmpty_cons, if_neg] at h
            cases h
            exact hrec _
  · intro rs h
    unfold search_by_address at h
    split at h
    · cases h
      simp
    · cases hl : m.load with
      | error e => rw [hl] at h; cases h; simp
      | ok u =>
        rw [hl] at h
        simp only [] at h
        cases hb : b.generate_embedding query with
        | error e => rw [hb] at h; cases h; simp
        | ok emb =>
          rw [hb] at h
          simp only [] at h
          cases hs : m.search .address_embedding emb limit with
          | error e => rw [hs] at h; cases h; simp
          | ok hits =>
            rw [hs] at h
            simp only [] at h
            cases hf : formatEntityList hits with
            | error e => rw [hf] at h; cases h; simp
            | ok rs2 =>
              rw [hf] at h
              cases h
              exact formatEntityList_rank_none hits _ hf
  · intro rs h
    unfold search_by_context at h
    split at h
    · cases h
      simp
    · cases hl : m.load with
      | error e => rw [hl] at h; cases h; simp
      | ok u =>
        rw [hl] at h
        simp only [] at h
        cases hb : b.generate_embedding query with
        | error e => rw [hb] at h; cases h; simp
        | ok emb =>
          rw [hb] at h
          simp only [] at h
          cases hs : m.search .combined_embedding emb limit with
          | error e => rw [hs] at h; cases h; simp
          | ok hits =>
            rw [hs] at h
            simp only [] at h
            cases hf : formatEntityList hits with
            | error e => rw [hf] at h; cases h; simp
            | ok rs2 =>
              rw [hf] at h
              cases h
              exact formatEntityList_rank_none hits _ hf

/-- Witness for C4 (amended): the recency result for "latest" on the healthy
store carries ranks some 1, some 2. -/
theorem rank_contiguity_by_strategy_witness :
    ranksOf [formatRecencyRow row2 0, formatRecencyRow row1 1] =
      contiguousRanks 2 :=
  (rank_contiguity_by_strategy okStore okBedrock "latest" "combined" 5).2.1
    [formatRecencyRow row2 0, formatRecencyRow row1 1] (by rfl)

/-! ## C5: recency search behaviour -/

lemma formatRecencyList_timestamps (rows : List StoreRow) (i : Nat) :
    (formatRecencyList rows i).map (fun r => r.timestamp) = rows.map tsKey := by
  induction rows generalizing i with
  | nil => rfl
  | cons r t ih => simp [formatRecencyList, formatRecencyRow, tsKey, ih]

lemma formatRecencyList_pairwise (rows : List StoreRow) (i : Nat)
    (h : rows.Pairwise rowGE) :
    (formatRecencyList rows i).Pairwise
      (fun a b => b.timestamp ≤ a.timestamp) := by
  have h2 : (rows.map tsKey).Pairwise (fun x y => y ≤ x) :=
    List.pairwise_map.mpr h
  rw [← formatRecencyList_timestamps rows i] at h2
  exact List.pairwise_map.mp h2

lemma mem_formatRecencyList_fields (rows : List StoreRow) (i : Nat) :
    ∀ r ∈ formatRecencyList rows i,
      r.similarity_score = 0 ∧ r.search_type = some "recency" := by
  induction rows generalizing i with
  | nil => simp [formatRecencyList]
  | cons r0 t ih =>
    intro r hr
    rcases List.mem_cons.mp hr with h1 | h2
    · subst h1
      exact ⟨rfl, rfl⟩
    · exact ih (i + 1) r h2

/-- C5: when the collection is loaded and the (substring-filtered when the
stripped query is non-empty, match-all otherwise) candidate query at
2 times limit succeeds, the recency strategy returns the candidates sorted
by timestamp in non-increasing order, truncated to at most limit records,
each carrying similarity_score 0.0 and search_type "recency". -/
theorem search_by_recency_spec (m : MilvusService) (query : String)
    (limit : Nat) (rows : List StoreRow)
    (hc : m.hasCollection = true) (hl : m.load = .ok ())
    (hq : m.query (recencyExpr query) (limit * 2) = .ok rows) :
    search_by_recency m query limit =
      .ok (formatRecencyList ((sortByTimestampDesc rows).take limit) 0) ∧
    ∀ rs, search_by_recency m query limit = .ok rs →
      rs.length ≤ limit ∧
      rs.Pairwise (fun a b => b.timestamp ≤ a.timestamp) ∧
      ∀ r ∈ rs, r.similarity_score = 0 ∧ r.search_type = some "recency" := by
  have heq : search_by_recency m query limit =
      .ok (formatRecencyList ((sortByTimestampDesc rows).take limit) 0) := by
    unfold search_by_recency
    simp only [hc, hl, hq, Bool.not_true]
    cases rows with
    | nil => simp [sortByTimestampDesc, formatRecencyList]
    | cons a t => simp
  refine ⟨heq, ?_⟩
  intro rs hrs
  rw [heq] at hrs
  cases hrs
  refine ⟨?_, ?_, ?_⟩
  · rw [formatRecencyList_length]
    exact List.length_take_le _ _
  · exact formatRecencyList_pairwise _ _
      (List.Pairwise.sublist (List.take_sublist _ _)
        (List.sorted_insertionSort rowGE rows))
  · exact mem_formatRecencyList_fields _ 0

/-- Witness for C5: instantiated on the healthy two-row store, the recency
output has at most 5 records and non-increasing timestamps. -/
theorem search_by_recency_spec_witness :
    (formatRecencyList ((sortByTimestampDesc [row1, row2]).take 5) 0).length
      ≤ 5 ∧
    (formatRecencyList ((sortByTimestampDesc [row1, row2]).take 5) 0).Pairwise
      (fun a b => b.timestamp ≤ a.timestamp) := by
  have hspec := search_by_recency_spec okStore "latest" 5 [row1, row2]
    rfl rfl rfl
  have h := hspec.2 _ hspec.1
  exact ⟨h.1, h.2.1⟩

/-! ## C6: zero-coercion of partial rows -/

lemma formatEntityList_error_of_null (hits : List SearchHit)
    (h0 : SearchHit) (hmem : h0 ∈ hits)
    (hnull : h0.entity.meter_value = none) :
    ∃ e, formatEntityList hits = .error e := by
  induction hits with
  | nil => cases hmem
  | cons hd tl ih =>
    rcases List.mem_cons.mp hmem with h1 | h2
    · subst h1
      exact ⟨"TypeError: float argument must not be None",
        by simp [formatEntityList, formatEntityHit, hnull]⟩
    · rcases ih h2 with ⟨e, he⟩
      cases hh : formatEntityHit hd with
      | error e2 => exact ⟨e2, by simp [formatEntityList, hh]⟩
      | ok r => exact ⟨e, by simp [formatEntityList, hh, he]⟩

/-- Counterexample to C6: the store returns one row whose meter_value is
null; instead of coercing it to 0.0 the address strategy raises internally
and its handler discards the entire result set. -/
theorem address_null_row_discarded_cex :
    nullFieldStore.search .address_embedding [1] 5 = .ok [nullHit] ∧
    nullHit.entity.meter_value = none ∧
    search_by_address nullFieldStore okBedrock "where" 5 = .ok [] :=
  ⟨rfl, rfl, rfl⟩

/-- C6 as amended: zero-coercion holds per strategy, not uniformly.  The
general-similarity formatter coerces absent numeric fields to 0 but passes
string fields through unchanged (null stays null); the recency formatter
coerces every scalar field to its type-appropriate zero value; the address
and context strategies apply no defaults, so a null numeric field on any
returned row aborts formatting and the whole result set is converted to the
empty list by the strategy's exception handler. -/
theorem zero_coercion_by_strategy :
    (∀ (h : SearchHit) (n : Nat),
      (formatSimilarHit h n).meter_value = h.entity.meter_value.getD 0 ∧
      (formatSimilarHit h n).confidence = h.entity.confidence.getD 0 ∧
      (formatSimilarHit h n).timestamp = h.entity.timestamp.getD 0 ∧
      (formatSimilarHit h n).id = h.entity.id ∧
      (formatSimilarHit h n).full_address = h.entity.full_address) ∧
    (∀ (r : StoreRow) (i : Nat),
      (formatRecencyRow r i).id = some (r.id.getD "") ∧
      (formatRecencyRow r i).meter_value = r.meter_value.getD 0 ∧
      (formatRecencyRow r i).full_address = some (r.full_address.getD "") ∧
      (formatRecencyRow r i).confidence = r.confidence.getD 0 ∧
      (formatRecencyRow r i).timestamp = r.timestamp.getD 0 ∧
      (formatRecencyRow r i).city = some (r.city.getD "") ∧
      (formatRecencyRow r i).street_name = some (r.street_name.getD "") ∧
      (formatRecencyRow r i).street_number =
        some (r.street_number.getD "")) ∧
    (∀ (m : MilvusService) (b : BedrockService) (query : String)
        (limit : Nat) (emb : List Rat) (hits : List SearchHit)
        (h0 : SearchHit),
      m.load = .ok () → b.generate_embedding query = .ok emb →
      m.search .address_embedding emb limit = .ok hits →
      h0 ∈ hits → h0.entity.meter_value = none →
      search_by_address m b query limit = .ok []) ∧
    (∀ (m : MilvusService) (b : BedrockService) (query : String)
        (limit : Nat) (emb : List Rat) (hits : List SearchHit)
        (h0 : SearchHit),
      m.load = .ok () → b.generate_embedding query = .ok emb →
      m.search .combined_embedding emb limit = .ok hits →
      h0 ∈ hits → h0.entity.meter_value = none →
      search_by_context m b query limit = .ok []) := by
  refine ⟨fun h n => ⟨rfl, rfl, rfl, rfl, rfl⟩,
    fun r i => ⟨rfl, rfl, rfl, rfl, rfl, rfl, rfl, rfl⟩, ?_, ?_⟩
  · intro m b query limit emb hits h0 hl hb hs hmem hnull
    rcases formatEntityList_error_of_null hits h0 hmem hnull with ⟨e, he⟩
    unfold search_by_address
    split
    · rfl
    · simp [hl, hb, hs, he]
  · intro m b query limit emb hits h0 hl hb hs hmem hnull
    rcases formatEntityList_error_of_null hits h0 hmem hnull with ⟨e, he⟩
    unfold search_by_context
    split
    · rfl
    · simp [hl, hb, hs, he]

/-- Witness for C6 (amended): the address strategy on the store returning a
null-meter_value row yields the empty result set. -/
theorem zero_coercion_by_strategy_witness :
    search_by_address nullFieldStore okBedrock "where" 5 = .ok [] :=
  zero_coercion_by_strategy.2.2.1 nullFieldStore okBedrock "where" 5 [1]
    [nullHit] nullHit rfl rfl rfl (by simp) rfl

/-! ## C7: chat service availability gate -/

/-- Counterexample to C7: with the store healthy and only Bedrock down, the
chat operation still reports service-unavailable before attempting any
strategy, although only one of the two systems is down. -/
theorem chat_bedrock_down_cex :
    okStore.hasCollection = true ∧
    chat okStore downBedrock "hello" =
      .unavailable "bedrock service not available" :=
  ⟨rfl, rfl⟩

/-- C7 as amended: the chat operation reports service-unavailable before
attempting any retrieval strategy whenever either the embedding service is
disconnected or the store collection is missing (Bedrock checked first);
only when both are up does a non-empty question proceed through the
strategy/fallback chain and receive an answer built from the (possibly
empty) retrieved context. -/
theorem chat_service_gate (m : MilvusService) (b : BedrockService)
    (message : String) (hne : pyStrip message ≠ "") :
    (b.connected = false →
      chat m b message = .unavailable "bedrock service not available") ∧
    (b.connected = true → m.hasCollection = false →
      chat m b message = .unavailable "milvus service not available") ∧
    (b.connected = true → m.hasCollection = true →
      ∀ rs, chatRetrieve m b (pyStrip message) = .ok rs →
        chat m b message = .answered rs) := by
  refine ⟨fun hb => ?_, fun hb hm => ?_, fun hb hm rs hr => ?_⟩
  · simp [chat, hne, hb]
  · simp [chat, hne, hb, hm]
  · simp [chat, hne, hb, hm, hr]

/-- Witness for C7 (amended): with both services healthy, the question
"hello" is answered from the general-similarity context. -/
theorem chat_service_gate_witness :
    chat okStore okBedrock "hello" = .answered (formatSimilarList [hit1] 0) :=
  (chat_service_gate okStore okBedrock "hello" (by decide)).2.2 rfl rfl
    (formatSimilarList [hit1] 0) (by rfl)

/-! ## C8: confidence clamping before storage -/

/-- Address fixture for upload-path evaluations. -/
def addr1 : AddressInfo :=
  { city := "Springfield", street_name := "Elm St", street_number := "12" }

/-- Embedding fixture for upload-path evaluations. -/
def emptyEmbed : EmbedData :=
  { address_embedding := [1]
    combined_embedding := [1]
    full_address := "12 Elm St, Springfield" }

/-- C8, evaluated at the failing input: a vision reply that fails JSON
parsing while the regex patterns extract a value.  The inner except block
builds the 0.7-confidence fallback dict announced by its own comment, but
never returns it, so analyze_meter_image returns None on that path and the
upload aborts with the 500 guard before any confidence is handed to
storage. -/
theorem vision_regex_fallback_never_returned :
    regexFallbackResult (some 12345) =
      { meter_value := 12345, confidence := 7/10 } ∧
    analyze_meter_image (.jsonBad (some 12345)) = none ∧
    upload_meter_reading true (.jsonBad (some 12345)) (.ok emptyEmbed) true
        (.ok ()) "meter_1" addr1 100 =
      .error
        (.internalError "Vision analysis failed to return valid results") :=
  ⟨rfl, rfl, rfl⟩

/-! ## C9: normalizer idempotence -/

lemma convertElem_idem {α : Type} (x : PyElem α) :
    convertElem (convertElem x) = convertElem x := by
  cases x <;> rfl

lemma convertValue_idem {α : Type} (v : PyVal α) :
    convertValue (convertValue v) = convertValue v := by
  cases v with
  | npScalar v => rfl
  | npArray vs => simp [convertValue, List.map_map, convertElem]
  | pyList vs =>
    simp only [convertValue, List.map_map]
    exact congrArg PyVal.pyList
      (List.map_congr_left (fun x _ => convertElem_idem x))
  | plain v => rfl

/-- C9: applying convert_milvus_result twice yields the same record as
applying it once; every field shape one normalization produces (plain
scalars, plain lists of plain scalars) is a fixed point of a second
normalization. -/
theorem convert_milvus_result_idempotent {α : Type}
    (result : List (String × PyVal α)) :
    convert_milvus_result (convert_milvus_result result) =
      convert_milvus_result result := by
  unfold convert_milvus_result
  rw [List.map_map]
  exact List.map_congr_left (fun kv _ => by
    simp [Function.comp, convertValue_idem])

/-! ## C10: upload success despite failed persistence -/

/-- C10 (implicit behaviour): when Bedrock is connected, vision analysis
succeeds (returns a dict) and embedding generation succeeds, the upload
path returns the same success response (success = true, the reading id,
the extracted meter value) whether the insert succeeded or raised
internally (store_meter_reading returning False is only logged); only the
persisted row differs (none when storage failed). -/
theorem upload_success_despite_store_failure (resp : ModelResponse)
    (vr : VisionResult) (e : EmbedData) (reading_id : String)
    (a : AddressInfo) (ts : Int) (hv : analyze_meter_image resp = some vr) :
    upload_meter_reading true resp (.ok e) true (.error "insert failed")
        reading_id a ts =
      .ok ({ success := true
             reading_id := reading_id
             meter_value := vr.meter_value
             confidence := vr.confidence
             address := full_address_of a }, none) ∧
    upload_meter_reading true resp (.ok e) true (.ok ())
        reading_id a ts =
      .ok ({ success := true
             reading_id := reading_id
             meter_value := vr.meter_value
             confidence := vr.confidence
             address := full_address_of a },
           some (mkInsertData reading_id a vr.meter_value vr.confidence
             e ts)) := by
  refine ⟨?_, ?_⟩ <;> (unfold upload_meter_reading; rw [hv]; rfl)

/-- Witness for C10: a total vision failure still yields a dict (meter
value 0, confidence 0), and a failed insert produces the same success
response as a persisted one, with nothing stored. -/
theorem upload_success_despite_store_failure_witness :
    upload_meter_reading true (.callFailed "timeout") (.ok emptyEmbed) true
        (.error "insert failed") "meter_1" addr1 100 =
      .ok ({ success := true
             reading_id := "meter_1"
             meter_value := 0
             confidence := 0
             address := full_address_of addr1 }, none) :=
  (upload_success_despite_store_failure (.callFailed "timeout")
    { meter_value := 0, confidence := 0 } emptyEmbed "meter_1" addr1 100
    rfl).1
